import Mathlib

/-!
Shallow embedding of the S3-Minio-Write-Read ETL pipeline
(src/main.py, src/utils/s3_minio_utils.py, src/utils/duckdb_utils.py)
and proofs about its specification claims.

Python values that matter to the claims are modelled explicitly:
pandas DataFrames become column-major tables of `Val`s, Python
exceptions become an explicit `PyErr` carried in `Except`, and the
external effects (HTTP GET, object-store upload, DuckDB query engine,
warehouse state) become explicit parameters / state passing.
-/

/-- A scalar cell value of a table: strings, integers, timestamps. -/
inductive Val where
  | str (s : String)
  | int (n : Int)
  | ts (t : Nat)
deriving DecidableEq, Repr

/-- Python exceptions that the embedded code can raise or wrap.
`runtimeErrorFrom e` models `raise RuntimeError(...) from e`. -/
inductive PyErr where
  | valueError (msg : String)
  | typeError (msg : String)
  | connectionError
  | valueErrorParse
  | runtimeErrorFrom (cause : PyErr)
  | other (msg : String)
deriving DecidableEq, Repr

/-- A pandas DataFrame, column-major: each column is a name paired with
its cell values top to bottom. `df["c"] = v` replaces the column if the
name exists and appends it otherwise, exactly as pandas does. -/
structure DataFrame where
  cols : List (String × List Val)
deriving DecidableEq, Repr

/-- Number of rows: the length of the index, i.e. of the first column. -/
def DataFrame.nRows (df : DataFrame) : Nat :=
  match df.cols with
  | [] => 0
  | c :: _ => c.2.length

/-- pandas `df.empty`: true when the frame holds no elements. -/
def DataFrame.pdEmpty (df : DataFrame) : Bool :=
  df.nRows == 0

/-- `df[name] = vals`: replace the column when present, append otherwise. -/
def DataFrame.setCol (df : DataFrame) (name : String) (vals : List Val) : DataFrame :=
  if df.cols.any (fun c => c.1 == name) then
    ⟨df.cols.map (fun c => if c.1 == name then (c.1, vals) else c)⟩
  else
    ⟨df.cols ++ [(name, vals)]⟩

/-- Look a column up by name. -/
def DataFrame.getCol (df : DataFrame) (name : String) : Option (List Val) :=
  (df.cols.find? (fun c => c.1 == name)).map (fun c => c.2)

/-- `DataFrame()`: the empty frame. -/
def DataFrame.emptyDF : DataFrame := ⟨[]⟩

/-! ## src/utils/s3_minio_utils.py — bucket-name validation -/

/-- ASCII decimal digit (the `\d` of the source's IP regex on the
ASCII strings the validator can reach). -/
def isDigitCh (c : Char) : Bool := 48 ≤ c.toNat && c.toNat ≤ 57

/-- ASCII lowercase letter. -/
def isLowerCh (c : Char) : Bool := 97 ≤ c.toNat && c.toNat ≤ 122

/-- Character class `[a-z0-9]`. -/
def isLowerAlnumCh (c : Char) : Bool := isLowerCh c || isDigitCh c

/-- ASCII uppercase letter. -/
def isUpperCh (c : Char) : Bool := 65 ≤ c.toNat && c.toNat ≤ 90

/-- Character class `[a-z0-9\-\.]`. -/
def isAllowedCh (c : Char) : Bool := isLowerAlnumCh c || c == '-' || c == '.'

/-- Tail of the regex `[a-z0-9][a-z0-9\-\.]*[a-z0-9]`: all characters in
`[a-z0-9\-\.]` and the last one in `[a-z0-9]`; false on the empty list. -/
def matchesTail : List Char → Bool
  | [] => false
  | [c] => isLowerAlnumCh c
  | c :: rest => isAllowedCh c && matchesTail rest

/-- `re.fullmatch(r"[a-z0-9][a-z0-9\-\.]*[a-z0-9]", name)` as a Boolean. -/
def matchesNameRegex : List Char → Bool
  | [] => false
  | c :: rest => isLowerAlnumCh c && matchesTail rest

/-- Split a character list on `'.'` (like `str.split(".")`): always at
least one group, empty groups kept. -/
def splitDots : List Char → List (List Char)
  | [] => [[]]
  | c :: rest =>
    match splitDots rest with
    | [] => [[c]]
    | g :: gs => if c == '.' then [] :: g :: gs else (c :: g) :: gs

/-- `re.fullmatch(r"\d+\.\d+\.\d+\.\d+", name)`: exactly four dot-separated
nonempty all-digit groups. -/
def isIpShape (cs : List Char) : Bool :=
  let parts := splitDots cs
  parts.length == 4 && parts.all (fun p => !p.isEmpty && p.all isDigitCh)

/-- `is_valid_bucket_name` from src/utils/s3_minio_utils.py, check for
check in the source's order. -/
def is_valid_bucket_name (name : String) : Bool :=
  let cs := name.toList
  if cs.length < 3 || 63 < cs.length then false
  else if !matchesNameRegex cs then false
  else if cs.contains '_' then false
  else if isIpShape cs then false
  else if ("xn--".toList).isPrefixOf cs then false
  else if ("-s3alias".toList).isSuffixOf cs then false
  else true

/-! ## src/utils/s3_minio_utils.py — create_bucket -/

/-- A call made to the object-store backend. -/
inductive BackendCall where
  | existsCheck (name : String)
  | makeBucketCall (name : String)
deriving DecidableEq, Repr

/-- `create_bucket(client, name)`: the backend is abstracted by
`bucket_exists` (outcome of `client.bucket_exists(name)`) and
`makeResult` (outcome of `client.make_bucket(name)` when attempted).
Returns the trace of backend calls made alongside the Python result. -/
def create_bucket (name : String) (bucket_exists : Bool)
    (makeResult : Except PyErr Unit) : List BackendCall × Except PyErr Bool :=
  if !is_valid_bucket_name name then
    ([], .error (.valueError "Невалидное имя для bucket."))
  else if bucket_exists then
    ([.existsCheck name], .ok true)
  else
    match makeResult with
    | .ok _ => ([.existsCheck name, .makeBucketCall name], .ok true)
    | .error e =>
      ([.existsCheck name, .makeBucketCall name], .error (.runtimeErrorFrom e))

/-! ## src/utils/s3_minio_utils.py — load_data_to_bucket_via_url -/

/-- The parts of a `requests` response the function reads. -/
structure HttpResponse where
  status_code : Nat
  contentLength : Option String
  contentType : Option String
deriving DecidableEq, Repr

/-- Python `int(str)` on the Content-Length header value: optional sign
and at least one ASCII digit after stripping whitespace (digit-group
underscores are not modelled; headers never carry them). -/
def pyIntParse (s : String) : Except PyErr Int :=
  let t := s.trim.toList
  let signDigits : Int × List Char :=
    match t with
    | '-' :: rest => (-1, rest)
    | '+' :: rest => (1, rest)
    | l => (1, l)
  if signDigits.2 ≠ [] ∧ signDigits.2.all isDigitCh then
    .ok (signDigits.1 * (signDigits.2.foldl (fun acc c => 10 * acc + (c.toNat - 48)) 0 : Nat))
  else
    .error .valueErrorParse

/-- `length = int(response.headers.get("Content-Length", -1))`. -/
def contentLengthOf (resp : HttpResponse) : Except PyErr Int :=
  match resp.contentLength with
  | none => .ok (-1)
  | some s => pyIntParse s

/-- Log lines the function emits, kept only as far as the claims need them. -/
inductive StageLog where
  | bucketNotFound
  | errorDownload
  | errorUpload
  | doneLog
deriving DecidableEq, Repr

/-- `load_data_to_bucket_via_url(client, bucket_name, file_path, url, part_size)`
with well-typed arguments. The network is abstracted by `bucket_exists`
(outcome of `client.bucket_exists`), `getResult` (outcome of
`requests.get(url, ...)`) and `putResult` (outcome of `client.put_object`
when attempted). Returns the emitted log events alongside the Python
result; `.error` in the second component means an uncaught raise. -/
def load_data_to_bucket_via_url (bucket_name file_path url : String)
    (part_size : Nat) (bucket_exists : Bool)
    (getResult : Except PyErr HttpResponse)
    (putResult : Except PyErr Unit) : List StageLog × Except PyErr Bool :=
  let logs0 : List StageLog := if bucket_exists then [] else [.bucketNotFound]
  match getResult with
  | .error _ => (logs0 ++ [.errorDownload], .ok false)
  | .ok resp =>
    if resp.status_code ≠ 200 then
      (logs0 ++ [.errorDownload], .ok false)
    else
      match contentLengthOf resp with
      | .error e => (logs0, .error e)
      | .ok _length =>
        match putResult with
        | .error _ => (logs0 ++ [.errorUpload], .ok false)
        | .ok _ => (logs0 ++ [.doneLog], .ok true)

/-! ## src/utils/duckdb_utils.py — extract_parquet_from_s3 -/

/-- Object-store connection parameters (the `MINIO_CREDS` shape; the
default creds dict has no "secure" key, so `.get("secure", False)`
yields `false` there). -/
structure MinioCreds where
  endpoint : String
  access_key : String
  secret_key : String
  secure : Bool
deriving DecidableEq, Repr

/-- The exact SQL text `extract_parquet_from_s3` sends to DuckDB. -/
def extractQuery (conn_params : MinioCreds) (bucket_name object_name : String) : String :=
  let ssl := if conn_params.secure then "True" else "False"
  "
            SET TIMEZONE = \x27UTC\x27;
            INSTALL httpfs;
            LOAD httpfs;
            SET s3_url_style = \x27path\x27;
            SET s3_endpoint = \x27" ++ conn_params.endpoint ++ "\x27;
            SET s3_access_key_id = \x27" ++ conn_params.access_key ++ "\x27;
            SET s3_secret_access_key = \x27" ++ conn_params.secret_key ++ "\x27;
            SET s3_use_ssl = " ++ ssl ++ ";
            SELECT * FROM read_parquet(\x27s3://" ++ bucket_name ++ "/" ++ object_name ++ "\x27);
            "

/-- `extract_parquet_from_s3(bucket_name, object_name, conn_params)`.
The DuckDB engine is abstracted by `engine`, mapping the SQL text to the
materialized frame or a raised error. The `try`/`except` around the
query turns any engine failure into `DataFrame()`; the function itself
never raises, hence the result is always `.ok`. -/
def extract_parquet_from_s3 (bucket_name object_name : String)
    (conn_params : MinioCreds)
    (engine : String → Except PyErr DataFrame) : Except PyErr DataFrame :=
  .ok (match engine (extractQuery conn_params bucket_name object_name) with
       | .ok df => df
       | .error _ => DataFrame.emptyDF)

/-! ## src/utils/duckdb_utils.py — transform_df -/

/-- `transform_df(df, object_name="")`. The wall-clock read
`datetime.now()` is the explicit parameter `now`; each assignment
broadcasts its scalar over the frame's row count. -/
def transform_df (now : Nat) (df : DataFrame) (object_name : String := "") : DataFrame :=
  if df.pdEmpty then df
  else
    let n := df.nRows
    let df1 := df.setCol "ingested_at" (List.replicate n (Val.ts now))
    let df2 := df1.setCol "source_system" (List.replicate n (Val.str "s3"))
    df2.setCol "source_file" (List.replicate n (Val.str object_name))

/-! ## src/utils/duckdb_utils.py — load_df_to_postgres -/

/-- A warehouse table: column names and rows (row-major). -/
structure PgTable where
  cols : List String
  rows : List (List Val)
deriving DecidableEq, Repr

/-- The warehouse: schema-qualified tables, keyed by (schema, table). -/
abbrev PgState := List ((String × String) × PgTable)

/-- Statements `load_df_to_postgres` executes against the warehouse. -/
inductive PgOp where
  | connect
  | attach
  | createSchema (s : String)
  | createTableIfNotExists (s t : String)
  | deleteWhere (s t col val : String)
  | insertRows (s t : String) (n : Nat)
deriving DecidableEq, Repr

/-- Look up a table by (schema, name). -/
def lookupTable (pg : PgState) (st : String × String) : Option PgTable :=
  (pg.find? (fun e => e.1 == st)).map (fun e => e.2)

/-- Create or replace a table at (schema, name). -/
def setTable (pg : PgState) (st : String × String) (t : PgTable) : PgState :=
  if (pg.find? (fun e => e.1 == st)).isSome then
    pg.map (fun e => if e.1 == st then (e.1, t) else e)
  else
    pg ++ [(st, t)]

/-- The frame's column names, in order. -/
def DataFrame.colNames (df : DataFrame) : List String :=
  df.cols.map (fun c => c.1)

/-- The frame as rows (`SELECT * FROM input_df`). -/
def DataFrame.toRows (df : DataFrame) : List (List Val) :=
  (List.range df.nRows).map (fun i =>
    df.cols.map (fun c => c.2.getD i (Val.str "")))

/-- A row's value in the named column, given the table's column list. -/
def rowField (cols : List String) (row : List Val) (name : String) : Option Val :=
  match cols.indexOf? name with
  | none => none
  | some i => row.get? i

/-- `load_df_to_postgres(table, df, object_name, conn_params, schema="raw")`.
The warehouse is explicit state; the second component is the trace of
statements executed. Empty input returns before any connection is made.
Note the source's DELETE predicate: `WHERE source_system = '{object_name}'`. -/
def load_df_to_postgres (table : String) (df : DataFrame) (object_name : String)
    (pg : PgState) (schema : String := "raw") : PgState × List PgOp :=
  if df.pdEmpty then (pg, [])
  else
    let pg1 :=
      match lookupTable pg (schema, table) with
      | some _ => pg
      | none => setTable pg (schema, table) ⟨df.colNames, []⟩
    let t := (lookupTable pg1 (schema, table)).getD ⟨df.colNames, []⟩
    let afterDelete : PgTable :=
      ⟨t.cols, t.rows.filter (fun r =>
        !(rowField t.cols r "source_system" == some (Val.str object_name)))⟩
    let afterInsert : PgTable := ⟨afterDelete.cols, afterDelete.rows ++ df.toRows⟩
    (setTable pg1 (schema, table) afterInsert,
     [PgOp.connect, PgOp.attach, PgOp.createSchema schema,
      PgOp.createTableIfNotExists schema table,
      PgOp.deleteWhere schema table "source_system" object_name,
      PgOp.insertRows schema table df.nRows])

/-! ## src/main.py — the orchestrator -/

def YEAR : Nat := 2025

def BUCKET_NAME : String := "nyc-taxi-data"

def BASE_URL : String := "https://d37ci6vzurychx.cloudfront.net/trip-data/"

/-- Python `f"{i:02}"` for the month counter. -/
def fmt2 (i : Nat) : String :=
  if i < 10 then "0" ++ toString i else toString i

/-- `filename = f"yellow_tripdata_{YEAR}-{i:02}.parquet"`. -/
def filenameFor (year i : Nat) : String :=
  "yellow_tripdata_" ++ toString year ++ "-" ++ fmt2 i ++ ".parquet"

/-- `filepath = f"{YEAR}/{i:02}/" + filename`. -/
def filepathFor (year i : Nat) : String :=
  toString year ++ "/" ++ fmt2 i ++ "/" ++ filenameFor year i

/-- The orchestrator's transform step, exactly as written in main.py:
`df = transform_df(df)` — the `object_name` argument omitted, so the
default applies. -/
def main_transform_step (now : Nat) (df : DataFrame) : DataFrame :=
  transform_df now df

/-- Number of rows currently in warehouse table (schema, table). -/
def tableRowCount (pg : PgState) (schema table : String) : Nat :=
  match lookupTable pg (schema, table) with
  | none => 0
  | some t => t.rows.length

/-! ## Auxiliary definitions used by the theorems -/

/-- The acceptance side of the validator claim, spelled out: lowercase
alphanumeric names of legal length with internal dots or dashes that
start and end alphanumeric and avoid the reserved shapes. -/
def acceptShape (name : String) : Bool :=
  (3 ≤ name.toList.length && name.toList.length ≤ 63) &&
  name.toList.all isAllowedCh &&
  name.toList.head?.any isLowerAlnumCh &&
  name.toList.getLast?.any isLowerAlnumCh &&
  !isIpShape name.toList &&
  !(("xn--".toList).isPrefixOf name.toList) &&
  !(("-s3alias".toList).isSuffixOf name.toList)

/-- The January object key produced by the orchestrator for YEAR = 2025. -/
def sampleKey : String := filepathFor YEAR 1

/-- A one-row transformed batch as it reaches the Load stage: native
column plus the three provenance columns, `source_file` tagged with the
January key. -/
def sampleBatch : DataFrame :=
  ⟨[("fare", [Val.int 10]), ("ingested_at", [Val.ts 0]),
    ("source_system", [Val.str "s3"]), ("source_file", [Val.str sampleKey])]⟩

/-- Concrete object-store credentials for closed instances. -/
def sampleCreds : MinioCreds :=
  ⟨"localhost:9000", "minioadmin", "minioadmin", false⟩

/-! ## Helper lemmas for the validator -/

lemma lowerAlnum_allowed (c : Char) (h : isLowerAlnumCh c = true) : isAllowedCh c = true := by
  unfold isAllowedCh
  simp [h]

lemma allowed_char_cases (c : Char) (h : isAllowedCh c = true) :
    (97 ≤ c.toNat ∧ c.toNat ≤ 122) ∨ (48 ≤ c.toNat ∧ c.toNat ≤ 57) ∨
    c.toNat = 45 ∨ c.toNat = 46 := by
  unfold isAllowedCh isLowerAlnumCh isLowerCh isDigitCh at h
  simp only [Bool.or_eq_true, Bool.and_eq_true, decide_eq_true_eq, beq_iff_eq] at h
  rcases h with ((⟨h1, h2⟩ | ⟨h1, h2⟩) | hc) | hc
  · exact Or.inl ⟨h1, h2⟩
  · exact Or.inr (Or.inl ⟨h1, h2⟩)
  · exact Or.inr (Or.inr (Or.inl (by rw [hc]; rfl)))
  · exact Or.inr (Or.inr (Or.inr (by rw [hc]; rfl)))

lemma matchesTail_spec (cs : List Char) :
    matchesTail cs = true ↔
      cs ≠ [] ∧ (∀ c ∈ cs, isAllowedCh c = true) ∧
      cs.getLast?.any isLowerAlnumCh = true := by
  induction cs with
  | nil => simp [matchesTail]
  | cons c rest ih =>
    cases rest with
    | nil =>
      simp only [matchesTail, List.mem_singleton, List.getLast?_singleton]
      constructor
      · intro h
        exact ⟨by simp, by intro x hx; rw [hx]; exact lowerAlnum_allowed c h, by simpa using h⟩
      · rintro ⟨-, -, h⟩
        simpa using h
    | cons c2 rest2 =>
      rw [show matchesTail (c :: c2 :: rest2) = (isAllowedCh c && matchesTail (c2 :: rest2)) from rfl]
      rw [Bool.and_eq_true, ih]
      constructor
      · rintro ⟨hc, -, hall, hlast⟩
        refine ⟨by simp, ?_, by simpa [List.getLast?_cons_cons] using hlast⟩
        intro x hx
        rcases List.mem_cons.mp hx with rfl | hx
        · exact hc
        · exact hall x hx
      · rintro ⟨-, hall, hlast⟩
        refine ⟨hall c (by simp), by simp, ?_, ?_⟩
        · intro x hx; exact hall x (List.mem_cons_of_mem c hx)
        · simpa [List.getLast?_cons_cons] using hlast

lemma matchesNameRegex_spec (cs : List Char) :
    matchesNameRegex cs = true ↔
      2 ≤ cs.length ∧ cs.head?.any isLowerAlnumCh = true ∧
      (∀ c ∈ cs, isAllowedCh c = true) ∧
      cs.getLast?.any isLowerAlnumCh = true := by
  cases cs with
  | nil => simp [matchesNameRegex]
  | cons c rest =>
    rw [show matchesNameRegex (c :: rest) = (isLowerAlnumCh c && matchesTail rest) from rfl]
    rw [Bool.and_eq_true, matchesTail_spec]
    constructor
    · rintro ⟨hc, hne, hall, hlast⟩
      have hlen : 2 ≤ (c :: rest).length := by
        cases rest with
        | nil => exact absurd rfl hne
        | cons a b => simp [Nat.succ_le_succ, Nat.le_add_left]
      refine ⟨hlen, by simpa using hc, ?_, ?_⟩
      · intro x hx
        rcases List.mem_cons.mp hx with rfl | hx
        · exact lowerAlnum_allowed x hc
        · exact hall x hx
      · cases rest with
        | nil => exact absurd rfl hne
        | cons a b => simpa [List.getLast?_cons_cons] using hlast
    · rintro ⟨hlen, hhead, hall, hlast⟩
      cases rest with
      | nil => simp at hlen
      | cons a b =>
        refine ⟨by simpa using hhead, by simp, ?_, ?_⟩
        · intro x hx; exact hall x (List.mem_cons_of_mem c hx)
        · simpa [List.getLast?_cons_cons] using hlast

lemma valid_iff (name : String) :
    is_valid_bucket_name name = true ↔
      ¬(name.toList.length < 3 ∨ 63 < name.toList.length) ∧
      matchesNameRegex name.toList = true ∧
      name.toList.contains '_' = false ∧
      isIpShape name.toList = false ∧
      ("xn--".toList).isPrefixOf name.toList = false ∧
      ("-s3alias".toList).isSuffixOf name.toList = false := by
  unfold is_valid_bucket_name
  dsimp only
  split_ifs with h1 h2 h3 h4 h5 h6 <;>
    simp_all only [Bool.or_eq_true, decide_eq_true_eq, Bool.not_eq_true', Bool.not_eq_false,
      not_or, Bool.false_eq_true, false_iff, true_iff, not_and, Bool.not_eq_true] <;>
    try tauto

/-! ## Claim theorems -/

/-- Claim C3: `is_valid_bucket_name` rejects names shorter than 3 or
longer than 63 characters, names containing underscores, uppercase
letters or spaces, names not starting and ending with a lowercase
alphanumeric character, dotted-quad IP shapes, `xn--` prefixes and
`-s3alias` suffixes; and accepts lowercase alphanumeric names with
internal dots or dashes that start and end alphanumeric (and avoid the
listed reserved shapes). -/
theorem C3_is_valid_bucket_name_spec (name : String) :
    ((name.toList.length < 3 ∨ 63 < name.toList.length) → is_valid_bucket_name name = false)
    ∧ (name.toList.contains '_' = true → is_valid_bucket_name name = false)
    ∧ ((∃ c ∈ name.toList, isUpperCh c = true) → is_valid_bucket_name name = false)
    ∧ (name.toList.contains ' ' = true → is_valid_bucket_name name = false)
    ∧ (¬(name.toList.head?.any isLowerAlnumCh = true ∧
          name.toList.getLast?.any isLowerAlnumCh = true) →
        is_valid_bucket_name name = false)
    ∧ (isIpShape name.toList = true → is_valid_bucket_name name = false)
    ∧ (("xn--".toList).isPrefixOf name.toList = true → is_valid_bucket_name name = false)
    ∧ (("-s3alias".toList).isSuffixOf name.toList = true → is_valid_bucket_name name = false)
    ∧ (acceptShape name = true → is_valid_bucket_name name = true) := by
  have key := valid_iff name
  have reject : ∀ P : Prop,
      (is_valid_bucket_name name = true → ¬P) → (P → is_valid_bucket_name name = false) := by
    intro P hP hp
    rcases Bool.eq_false_or_eq_true (is_valid_bucket_name name) with hb | hb
    · exact absurd hp (hP hb)
    · exact hb
  refine ⟨?_, ?_, ?_, ?_, ?_, ?_, ?_, ?_, ?_⟩
  · exact reject _ (fun hb h => (key.mp hb).1 h)
  · exact reject _ (fun hb h => by
      have := (key.mp hb).2.2.1; rw [h] at this; simp at this)
  · refine reject _ (fun hb h => ?_)
    obtain ⟨c, hc, hup⟩ := h
    have hall := (matchesNameRegex_spec name.toList).mp (key.mp hb).2.1
    have hallow := hall.2.2.1 c hc
    have := allowed_char_cases c hallow
    unfold isUpperCh at hup
    simp only [Bool.and_eq_true, decide_eq_true_eq] at hup
    omega
  · refine reject _ (fun hb h => ?_)
    have hmem : ' ' ∈ name.toList := by
      simpa using h
    have hall := (matchesNameRegex_spec name.toList).mp (key.mp hb).2.1
    have hallow := hall.2.2.1 ' ' hmem
    have := allowed_char_cases ' ' hallow
    simp at this
  · refine reject _ (fun hb h => ?_)
    have hspec := (matchesNameRegex_spec name.toList).mp (key.mp hb).2.1
    exact h ⟨hspec.2.1, hspec.2.2.2⟩
  · exact reject _ (fun hb h => by
      have := (key.mp hb).2.2.2.1; rw [h] at this; simp at this)
  · exact reject _ (fun hb h => by
      have := (key.mp hb).2.2.2.2.1; rw [h] at this; simp at this)
  · exact reject _ (fun hb h => by
      have := (key.mp hb).2.2.2.2.2; rw [h] at this; simp at this)
  · intro hacc
    unfold acceptShape at hacc
    simp only [Bool.and_eq_true, Bool.not_eq_true', decide_eq_true_eq,
      List.all_eq_true] at hacc
    obtain ⟨⟨⟨⟨⟨⟨⟨hlo, hhi⟩, hall⟩, hhead⟩, hlast⟩, hip⟩, hxn⟩, hal⟩ := hacc
    refine key.mpr ⟨by omega, ?_, ?_, hip, hxn, hal⟩
    · exact (matchesNameRegex_spec name.toList).mpr ⟨by omega, hhead, hall, hlast⟩
    · rcases Bool.eq_false_or_eq_true (name.toList.contains '_') with hb | hb
      · exfalso
        have hmem : '_' ∈ name.toList := by simpa using hb
        have := allowed_char_cases '_' (hall _ hmem)
        simp at this
      · exact hb

/-- Claim C3 witness: the theorem applied at concrete names, exercising
an accepted name, an underscore-and-uppercase rejection and an
IP-shaped rejection. -/
theorem C3_is_valid_bucket_name_spec_witness :
    is_valid_bucket_name "my-bucket" = true ∧
    is_valid_bucket_name "My_Bucket" = false ∧
    is_valid_bucket_name "192.168.0.1" = false := by
  refine ⟨(C3_is_valid_bucket_name_spec "my-bucket").2.2.2.2.2.2.2.2 (by decide),
          (C3_is_valid_bucket_name_spec "My_Bucket").2.1 (by decide),
          (C3_is_valid_bucket_name_spec "192.168.0.1").2.2.2.2.2.1 (by decide)⟩

/-- Claim C5: extraction wraps the query in try/except — it always
returns (never raises), and on any engine failure of the query against
the staged object it returns the empty table. -/
theorem C5_extract_swallows_failure (bucket_name object_name : String)
    (conn_params : MinioCreds) (engine : String → Except PyErr DataFrame) :
    (∃ df, extract_parquet_from_s3 bucket_name object_name conn_params engine = .ok df)
    ∧ (∀ e, engine (extractQuery conn_params bucket_name object_name) = .error e →
        extract_parquet_from_s3 bucket_name object_name conn_params engine
          = .ok DataFrame.emptyDF) := by
  unfold extract_parquet_from_s3
  constructor
  · exact ⟨_, rfl⟩
  · intro e he
    rw [he]

/-- Claim C5 witness: a missing staged object (engine raises) yields the
empty table. -/
theorem C5_extract_swallows_failure_witness :
    extract_parquet_from_s3 BUCKET_NAME sampleKey sampleCreds
      (fun _ => .error .connectionError) = .ok DataFrame.emptyDF :=
  (C5_extract_swallows_failure BUCKET_NAME sampleKey sampleCreds
    (fun _ => .error .connectionError)).2 .connectionError rfl

/-- Claim C6: loading an empty batch is a no-op — the warehouse state is
returned untouched, no statement executes, and every table keeps its row
count. -/
theorem C6_load_empty_noop (table : String) (df : DataFrame) (object_name : String)
    (pg : PgState) (schema : String) (h : df.pdEmpty = true) :
    load_df_to_postgres table df object_name pg schema = (pg, [])
    ∧ ∀ s t, tableRowCount (load_df_to_postgres table df object_name pg schema).1 s t
        = tableRowCount pg s t := by
  have hres : load_df_to_postgres table df object_name pg schema = (pg, []) := by
    unfold load_df_to_postgres
    rw [h]
    simp
  exact ⟨hres, fun s t => by rw [hres]⟩

/-- Claim C6 witness: the theorem at the empty frame over an empty
warehouse. -/
theorem C6_load_empty_noop_witness :
    load_df_to_postgres "nyc_taxi_data_2025" DataFrame.emptyDF sampleKey [] "raw" = ([], []) :=
  (C6_load_empty_noop "nyc_taxi_data_2025" DataFrame.emptyDF sampleKey [] "raw" (by rfl)).1

/-- Claim C7: `create_bucket` raises the invalid-name error before any
backend call when the validator rejects the name; returns success without
attempting creation when the bucket exists; and wraps any backend
creation failure in an error carrying the original cause instead of
returning false. -/
theorem C7_create_bucket_spec (name : String) (bucket_exists : Bool)
    (makeResult : Except PyErr Unit) :
    (is_valid_bucket_name name = false →
      create_bucket name bucket_exists makeResult
        = ([], .error (.valueError "Невалидное имя для bucket.")))
    ∧ (is_valid_bucket_name name = true → bucket_exists = true →
      create_bucket name bucket_exists makeResult = ([.existsCheck name], .ok true))
    ∧ (∀ e, is_valid_bucket_name name = true → bucket_exists = false →
      makeResult = .error e →
      (create_bucket name bucket_exists makeResult).2 = .error (.runtimeErrorFrom e)) := by
  refine ⟨?_, ?_, ?_⟩
  · intro h
    unfold create_bucket
    rw [h]
    simp
  · intro hv hb
    unfold create_bucket
    rw [hv, hb]
    simp
  · intro e hv hb hm
    unfold create_bucket
    rw [hv, hb, hm]
    simp

/-- Claim C7 witness: an already-existing valid bucket returns success
after only the existence check. -/
theorem C7_create_bucket_spec_witness :
    create_bucket "nyc-taxi-data" true (.ok ())
      = ([.existsCheck "nyc-taxi-data"], .ok true) :=
  (C7_create_bucket_spec "nyc-taxi-data" true (.ok ())).2.1 (by decide) rfl

/-- Claim C8: when the target bucket is absent, `load_data_to_bucket_via_url`
only adds a log line and proceeds — its outcome (returned value or raise)
is identical to the outcome with the bucket present, so bucket absence
never by itself fails the operation. -/
theorem C8_stage_bucket_absent_log_only (bucket_name file_path url : String)
    (part_size : Nat) (getResult : Except PyErr HttpResponse)
    (putResult : Except PyErr Unit) :
    (load_data_to_bucket_via_url bucket_name file_path url part_size false
        getResult putResult).2
      = (load_data_to_bucket_via_url bucket_name file_path url part_size true
        getResult putResult).2
    ∧ (load_data_to_bucket_via_url bucket_name file_path url part_size false
        getResult putResult).1
      = StageLog.bucketNotFound ::
        (load_data_to_bucket_via_url bucket_name file_path url part_size true
        getResult putResult).1 := by
  unfold load_data_to_bucket_via_url
  cases getResult with
  | error e => simp
  | ok resp =>
    by_cases hs : resp.status_code = 200
    · simp only [hs, if_neg (by omega : ¬(200 ≠ 200))]
      cases contentLengthOf resp with
      | error e => simp
      | ok L =>
        cases putResult with
        | error e => simp
        | ok u => simp
    · simp [hs]

/-- Claim C4: with well-typed arguments, a raising HTTP GET or a non-200
status makes `load_data_to_bucket_via_url` return false without raising;
a raising upload makes it return false without raising; and it returns
true only if the download succeeded with status 200 and the upload
completed without raising. -/
theorem C4_stage_error_handling (bucket_name file_path url : String)
    (part_size : Nat) (bucket_exists : Bool)
    (getResult : Except PyErr HttpResponse) (putResult : Except PyErr Unit) :
    (∀ e, getResult = .error e →
      (load_data_to_bucket_via_url bucket_name file_path url part_size bucket_exists
        getResult putResult).2 = .ok false)
    ∧ (∀ resp, getResult = .ok resp → resp.status_code ≠ 200 →
      (load_data_to_bucket_via_url bucket_name file_path url part_size bucket_exists
        getResult putResult).2 = .ok false)
    ∧ (∀ resp L e, getResult = .ok resp → resp.status_code = 200 →
      contentLengthOf resp = .ok L → putResult = .error e →
      (load_data_to_bucket_via_url bucket_name file_path url part_size bucket_exists
        getResult putResult).2 = .ok false)
    ∧ ((load_data_to_bucket_via_url bucket_name file_path url part_size bucket_exists
        getResult putResult).2 = .ok true →
      (∃ resp, getResult = .ok resp ∧ resp.status_code = 200) ∧ putResult = .ok ()) := by
  refine ⟨?_, ?_, ?_, ?_⟩
  · intro e he
    unfold load_data_to_bucket_via_url
    rw [he]
  · intro resp hr hs
    unfold load_data_to_bucket_via_url
    rw [hr]
    simp [hs]
  · intro resp L e hr hs hL hp
    unfold load_data_to_bucket_via_url
    rw [hr]
    simp only [hs, if_neg (by omega : ¬(200 ≠ 200))]
    rw [hL, hp]
  · intro hok
    unfold load_data_to_bucket_via_url at hok
    cases hg : getResult with
    | error e => rw [hg] at hok; simp at hok
    | ok resp =>
      rw [hg] at hok
      by_cases hs : resp.status_code = 200
      · simp only [hs, if_neg (by omega : ¬(200 ≠ 200))] at hok
        cases hL : contentLengthOf resp with
        | error e => rw [hL] at hok; simp at hok
        | ok L =>
          rw [hL] at hok
          cases hp : putResult with
          | error e => rw [hp] at hok; simp at hok
          | ok u => exact ⟨⟨resp, rfl, hs⟩, rfl⟩
      · simp [hs] at hok

/-- Claim C4 witness: the theorem at a transport failure, a 404 response
and a failing upload, each returning false, and the inversion lemma at a
successful run. -/
theorem C4_stage_error_handling_witness :
    (load_data_to_bucket_via_url "nyc-taxi-data" "f" "u" 52428800 true
      (.error .connectionError) (.ok ())).2 = .ok false
    ∧ (load_data_to_bucket_via_url "nyc-taxi-data" "f" "u" 52428800 true
      (.ok ⟨404, none, none⟩) (.ok ())).2 = .ok false
    ∧ (load_data_to_bucket_via_url "nyc-taxi-data" "f" "u" 52428800 true
      (.ok ⟨200, none, none⟩) (.error .connectionError)).2 = .ok false := by
  refine ⟨(C4_stage_error_handling "nyc-taxi-data" "f" "u" 52428800 true
            (.error .connectionError) (.ok ())).1 .connectionError rfl,
          (C4_stage_error_handling "nyc-taxi-data" "f" "u" 52428800 true
            (.ok ⟨404, none, none⟩) (.ok ())).2.1 ⟨404, none, none⟩ rfl (by decide),
          (C4_stage_error_handling "nyc-taxi-data" "f" "u" 52428800 true
            (.ok ⟨200, none, none⟩) (.error .connectionError)).2.2.1
            ⟨200, none, none⟩ (-1) .connectionError rfl rfl rfl rfl⟩

/-! ## Helper lemmas for column assignment -/

lemma setCol_append (df : DataFrame) (name : String) (vals : List Val)
    (h : df.cols.any (fun c => c.1 == name) = false) :
    df.setCol name vals = ⟨df.cols ++ [(name, vals)]⟩ := by
  unfold DataFrame.setCol
  rw [h]
  simp

lemma find?_setCol_aux (name : String) (vals : List Val) :
    ∀ l : List (String × List Val), (∃ x ∈ l, (x.1 == name) = true) →
    Option.map (fun c => c.2)
      ((l.map (fun c => if (c.1 == name) = true then (c.1, vals) else c)).find?
        (fun c => c.1 == name)) = some vals := by
  intro l
  induction l with
  | nil =>
    rintro ⟨x, hx, -⟩
    simp at hx
  | cons c tl ih =>
    rintro ⟨x, hx, hpx⟩
    by_cases hc : (c.1 == name) = true
    · rw [List.map_cons, if_pos hc, List.find?_cons_of_pos _ (by simpa using hc)]
      simp
    · rw [List.map_cons, if_neg hc, List.find?_cons_of_neg _ (by simpa using hc)]
      apply ih
      rcases List.mem_cons.mp hx with rfl | h2
      · exact absurd hpx hc
      · exact ⟨x, h2, hpx⟩

lemma getCol_setCol (df : DataFrame) (name : String) (vals : List Val) :
    (df.setCol name vals).getCol name = some vals := by
  unfold DataFrame.setCol DataFrame.getCol
  rcases Bool.eq_false_or_eq_true (df.cols.any (fun c => c.1 == name)) with hb | hb
  · rw [hb]
    simp only [if_true]
    exact find?_setCol_aux name vals df.cols (List.any_eq_true.mp hb)
  · rw [hb]
    simp only [Bool.false_eq_true, if_false]
    have hnone : (df.cols.find? (fun c => c.1 == name)) = none := by
      rw [List.find?_eq_none]
      intro x hx hcontra
      have : df.cols.any (fun c => c.1 == name) = true := List.any_eq_true.mpr ⟨x, hx, hcontra⟩
      rw [this] at hb
      exact Bool.noConfusion hb
    rw [List.find?_append, hnone]
    simp

/-- Claim C9 counterexample: on a non-empty input that already has a
`source_file` column, `transform_df` overwrites that pre-existing column
in place instead of appending — the result has 3 columns where
"appends exactly three" predicts 1 + 3 = 4, and the pre-existing
column's values change. -/
theorem C9_transform_overwrites_counterexample :
    (DataFrame.pdEmpty ⟨[("source_file", [Val.str "old"])]⟩) = false
    ∧ (DataFrame.getCol ⟨[("source_file", [Val.str "old"])]⟩ "source_file"
        = some [Val.str "old"])
    ∧ ((transform_df 7 ⟨[("source_file", [Val.str "old"])]⟩ "k").getCol "source_file"
        = some [Val.str "k"])
    ∧ ¬((transform_df 7 ⟨[("source_file", [Val.str "old"])]⟩ "k").cols.length
        = (⟨[("source_file", [Val.str "old"])]⟩ : DataFrame).cols.length + 3) := by
  refine ⟨rfl, rfl, rfl, by decide⟩

/-- Claim C9 (amended): `transform_df` returns an empty input unchanged;
on a non-empty input whose columns do not already include the three
provenance names it appends exactly `ingested_at` (the call-time
timestamp on every row), `source_system` (the constant "s3" on every
row) and `source_file` (the supplied identifier on every row), leaving
every pre-existing column — and hence every row — unchanged. Provenance
columns already present would be overwritten in place instead. -/
theorem C9_transform_df_amended (now : Nat) (df : DataFrame) (object_name : String) :
    (df.pdEmpty = true → transform_df now df object_name = df)
    ∧ (df.pdEmpty = false →
       (∀ c ∈ df.cols, c.1 ≠ "ingested_at" ∧ c.1 ≠ "source_system" ∧ c.1 ≠ "source_file") →
       transform_df now df object_name =
         ⟨df.cols ++ [("ingested_at", List.replicate df.nRows (Val.ts now)),
                      ("source_system", List.replicate df.nRows (Val.str "s3")),
                      ("source_file", List.replicate df.nRows (Val.str object_name))]⟩) := by
  constructor
  · intro h
    unfold transform_df
    rw [h]
    simp
  · intro h hfresh
    unfold transform_df
    rw [h]
    simp only [Bool.false_eq_true, if_false]
    have fresh_any : ∀ name, name ∈ (["ingested_at", "source_system", "source_file"] : List String) →
        df.cols.any (fun c => c.1 == name) = false := by
      intro name hname
      rcases Bool.eq_false_or_eq_true (df.cols.any (fun c => c.1 == name)) with hb | hb
      · exfalso
        obtain ⟨x, hx, hpx⟩ := List.any_eq_true.mp hb
        have hx1 : x.1 = name := by simpa using hpx
        obtain ⟨h1, h2, h3⟩ := hfresh x hx
        rcases List.mem_cons.mp hname with rfl | hname2
        · exact h1 hx1
        rcases List.mem_cons.mp hname2 with rfl | hname3
        · exact h2 hx1
        rcases List.mem_cons.mp hname3 with rfl | hname4
        · exact h3 hx1
        · simp at hname4
      · exact hb
    have s1 := setCol_append df "ingested_at" (List.replicate df.nRows (Val.ts now))
      (fresh_any "ingested_at" (by simp))
    rw [s1]
    have fresh2 : (DataFrame.mk (df.cols ++ [("ingested_at", List.replicate df.nRows (Val.ts now))])).cols.any
        (fun c => c.1 == "source_system") = false := by
      rw [List.any_append]
      rw [fresh_any "source_system" (by simp)]
      rfl
    have s2 := setCol_append _ "source_system" (List.replicate df.nRows (Val.str "s3")) fresh2
    rw [s2]
    have fresh3 : (DataFrame.mk ((df.cols ++ [("ingested_at", List.replicate df.nRows (Val.ts now))])
        ++ [("source_system", List.replicate df.nRows (Val.str "s3"))])).cols.any
        (fun c => c.1 == "source_file") = false := by
      rw [List.any_append, List.any_append]
      rw [fresh_any "source_file" (by simp)]
      rfl
    have s3 := setCol_append _ "source_file" (List.replicate df.nRows (Val.str object_name)) fresh3
    rw [s3]
    simp

/-- Claim C9 witness: the amended theorem at a one-column, one-row frame
with a fresh column name. -/
theorem C9_transform_df_amended_witness :
    transform_df 3 ⟨[("fare", [Val.int 1])]⟩ "2025/01/yellow_tripdata_2025-01.parquet" =
      ⟨[("fare", [Val.int 1]),
        ("ingested_at", [Val.ts 3]),
        ("source_system", [Val.str "s3"]),
        ("source_file", [Val.str "2025/01/yellow_tripdata_2025-01.parquet"])]⟩ := by
  have := (C9_transform_df_amended 3 ⟨[("fare", [Val.int 1])]⟩
    "2025/01/yellow_tripdata_2025-01.parquet").2 (by rfl) (by decide)
  simpa using this

/-- Claim C10: `transform_df`'s source-identifier parameter defaults to
the empty string, the orchestrator's transform step invokes it with
exactly that default, and on every non-empty frame the resulting
`source_file` column is the empty string on every row. -/
theorem C10_default_source_file (now : Nat) (df : DataFrame) :
    main_transform_step now df = transform_df now df ""
    ∧ (df.pdEmpty = false →
       (main_transform_step now df).getCol "source_file"
         = some (List.replicate df.nRows (Val.str ""))) := by
  constructor
  · rfl
  · intro h
    show (transform_df now df "").getCol "source_file" = _
    unfold transform_df
    rw [h]
    simp only [Bool.false_eq_true, if_false]
    exact getCol_setCol _ "source_file" _

/-- Claim C10 witness: the theorem at a concrete one-row frame. -/
theorem C10_default_source_file_witness :
    (main_transform_step 4 ⟨[("fare", [Val.int 2])]⟩).getCol "source_file"
      = some [Val.str ""] := by
  have := (C10_default_source_file 4 ⟨[("fare", [Val.int 2])]⟩).2 (by rfl)
  simpa using this

/-- Claim C1 refutation at a concrete input: the source's DELETE filters
on the `source_system` column (always "s3" after transform), not on
`source_file`, so loading the same one-row batch twice for the same
source identifier leaves two generations — row count 2 after the second
load instead of 1. The executed-statement trace shows the DELETE
predicate comparing `source_system` to the object key. -/
theorem C1_load_not_idempotent :
    tableRowCount (load_df_to_postgres "nyc_taxi_data_2025" sampleBatch sampleKey [] "raw").1
      "raw" "nyc_taxi_data_2025" = 1
    ∧ tableRowCount (load_df_to_postgres "nyc_taxi_data_2025" sampleBatch sampleKey
        (load_df_to_postgres "nyc_taxi_data_2025" sampleBatch sampleKey [] "raw").1 "raw").1
      "raw" "nyc_taxi_data_2025" = 2
    ∧ (load_df_to_postgres "nyc_taxi_data_2025" sampleBatch sampleKey [] "raw").2.contains
        (PgOp.deleteWhere "raw" "nyc_taxi_data_2025" "source_system" sampleKey) = true := by
  refine ⟨rfl, rfl, rfl⟩

/-- Claim C2 refutation at the end-to-end scenario: for YEAR = 2025,
month 01 the orchestrator does compute the claimed object key, and
extraction returns the staged rows, but the orchestrator's transform
step (`transform_df(df)` with the key argument omitted) tags
`source_file` with the empty string, not with the key. -/
theorem C2_orchestrator_source_file_mismatch :
    filepathFor YEAR 1 = "2025/01/yellow_tripdata_2025-01.parquet"
    ∧ extract_parquet_from_s3 BUCKET_NAME (filepathFor YEAR 1) sampleCreds
        (fun _ => .ok ⟨[("fare", [Val.int 9])]⟩) = .ok ⟨[("fare", [Val.int 9])]⟩
    ∧ (main_transform_step 5 ⟨[("fare", [Val.int 9])]⟩).getCol "source_file"
        = some [Val.str ""]
    ∧ (some [Val.str ""] : Option (List Val))
        ≠ some [Val.str "2025/01/yellow_tripdata_2025-01.parquet"] := by
  refine ⟨rfl, rfl, rfl, by decide⟩

/-- Claim C8 witness: the theorem at a concrete successful run — bucket
absence changes only the log line, not the returned value. -/
theorem C8_stage_bucket_absent_log_only_witness :
    (load_data_to_bucket_via_url "nyc-taxi-data" "f" "u" 52428800 false
      (.ok ⟨200, none, none⟩) (.ok ())).2
    = (load_data_to_bucket_via_url "nyc-taxi-data" "f" "u" 52428800 true
      (.ok ⟨200, none, none⟩) (.ok ())).2 :=
  (C8_stage_bucket_absent_log_only "nyc-taxi-data" "f" "u" 52428800
    (.ok ⟨200, none, none⟩) (.ok ())).1
